import Mathlib

/-!
Verification of the WebRTC signaling relay of the VideoCalling backend
(`backend/app/api/signaling.py` and `backend/app/core/security.py`).

The registry (`ConnectionManager`) keeps two Python dicts:
`rooms : room_id -> set of websockets` and `connections : websocket -> info`.
We model websockets by natural numbers, dicts by association lists with
decidable-equality keys (lookup of the first matching key; removal deletes
every matching entry, as a dict holds each key at most once), and Python
sets by duplicate-free lists.  A send over a websocket can raise; this is
modelled by a `failing` predicate on connections: `sendJson` returns
`Except`, and each call site either catches the error (Python
`try/except: pass`) or lets it propagate, exactly as in the source.
Deliveries are the list of (recipient, message) pairs whose send succeeded.
-/

set_option autoImplicit false

namespace Signaling

/-- Identity metadata the registry records per connection
(the dict stored in `ConnectionManager.connections`). -/
structure ConnInfo where
  room_id : String
  user_id : String
  user_role : String
deriving DecidableEq

/-- State of `ConnectionManager`: the `rooms` dict (room id to membership
set) and the `connections` dict (websocket to identity). -/
structure ManagerState where
  rooms : List (String × List Nat)
  connections : List (Nat × ConnInfo)
deriving DecidableEq

/-- First-match lookup in an association list (Python `d[k]` / `d.get(k)`). -/
def lookupAssoc {α β : Type} [DecidableEq α] : List (α × β) → α → Option β
  | [], _ => none
  | (k, v) :: rest, a => if k = a then some v else lookupAssoc rest a

/-- Dict assignment `d[k] = v`: replace the entry for `k`, or append it. -/
def updateAssoc {α β : Type} [DecidableEq α] : List (α × β) → α → β → List (α × β)
  | [], a, v => [(a, v)]
  | (k, w) :: rest, a, v =>
    if k = a then (a, v) :: rest else (k, w) :: updateAssoc rest a v

/-- Dict deletion `del d[k]`: remove every entry for `k`. -/
def removeAssoc {α β : Type} [DecidableEq α] : List (α × β) → α → List (α × β)
  | [], _ => []
  | (k, w) :: rest, a =>
    if k = a then removeAssoc rest a else (k, w) :: removeAssoc rest a

/-- Messages the relay emits (the `send_json` payloads of `signaling.py`).
Opaque JSON payload bodies taken from the inbound message with `data.get`
are carried as `Option String`. -/
inductive Msg where
  | userJoined (user_id user_role : String) (participants : Nat)
  | roomInfo (room_id : String) (participants : List ConnInfo) (your_id : String)
  | userLeft (user_id user_role : String)
  | offer (body : Option String) (from_id from_role : String)
  | answer (body : Option String) (from_id : String)
  | iceCandidate (body : Option String) (from_id : String)
  | recordingStarted (started_by : String)
  | recordingStopped (stopped_by : String)
  | consentRequested (requested_by : String)
  | consentResponse (granted : Option Bool) (from_id : String)
  | chat (message : Option String) (from_id from_role : String)
  | pong
deriving DecidableEq

/-- One `websocket.send_json(m)` call: fails exactly on the connections the
`failing` predicate marks broken, otherwise delivers `m`. -/
def sendJson (failing : Nat → Bool) (c : Nat) (m : Msg) : Except Unit Msg :=
  if failing c then Except.error () else Except.ok m

/-- The `for connection in connections` loop of
`ConnectionManager.broadcast_to_room`: skip `exclude`, send to everyone
else, swallowing (`except Exception: pass`) any send failure. -/
def broadcastLoop (failing : Nat → Bool) (message : Msg) (exclude : Option Nat) :
    List Nat → List (Nat × Msg)
  | [] => []
  | c :: rest =>
    let tail := broadcastLoop failing message exclude rest
    if some c = exclude then tail
    else
      match sendJson failing c message with
      | Except.ok m => (c, m) :: tail
      | Except.error _ => tail

/-- `ConnectionManager.broadcast_to_room`: no-op if the room is absent,
otherwise iterate a snapshot of the membership set. -/
def ManagerState.broadcast_to_room (st : ManagerState) (failing : Nat → Bool)
    (room_id : String) (message : Msg) (exclude : Option Nat) : List (Nat × Msg) :=
  match lookupAssoc st.rooms room_id with
  | none => []
  | some conns => broadcastLoop failing message exclude conns

/-- The loop of `ConnectionManager.send_to_user`: first connection that is
registered and whose recorded `user_id` equals the target gets the message
(send failure swallowed), then `break`. -/
def sendToUserLoop (connsMap : List (Nat × ConnInfo)) (failing : Nat → Bool)
    (target : Option String) (message : Msg) : List Nat → List (Nat × Msg)
  | [] => []
  | c :: rest =>
    match lookupAssoc connsMap c with
    | some info =>
      if some info.user_id = target then
        match sendJson failing c message with
        | Except.ok m => [(c, m)]
        | Except.error _ => []
      else sendToUserLoop connsMap failing target message rest
    | none => sendToUserLoop connsMap failing target message rest

/-- `ConnectionManager.send_to_user`.  The target comes from
`data.get("target_id")`, hence is optional; a missing target matches no
recorded (string) user id. -/
def ManagerState.send_to_user (st : ManagerState) (failing : Nat → Bool)
    (room_id : String) (target : Option String) (message : Msg) : List (Nat × Msg) :=
  match lookupAssoc st.rooms room_id with
  | none => []
  | some conns => sendToUserLoop st.connections failing target message conns

/-- `ConnectionManager.get_room_participants`: identity records of the
room's members that are present in the `connections` dict. -/
def ManagerState.get_room_participants (st : ManagerState) (room_id : String) :
    List ConnInfo :=
  match lookupAssoc st.rooms room_id with
  | none => []
  | some conns => conns.filterMap (fun c => lookupAssoc st.connections c)

/-- `ConnectionManager.connect`: create the room entry if absent, add the
websocket to the membership set, record its identity, then broadcast
`user-joined` (with the post-add participant count) to the room excluding
the new websocket.  Returns the new state and the successful deliveries. -/
def ManagerState.connect (st : ManagerState) (failing : Nat → Bool) (ws : Nat)
    (room_id user_id user_role : String) : ManagerState × List (Nat × Msg) :=
  let roomSet := (lookupAssoc st.rooms room_id).getD []
  let newSet := if ws ∈ roomSet then roomSet else ws :: roomSet
  let st' : ManagerState :=
    { rooms := updateAssoc st.rooms room_id newSet
      connections := updateAssoc st.connections ws ⟨room_id, user_id, user_role⟩ }
  (st', st'.broadcast_to_room failing room_id
    (Msg.userJoined user_id user_role newSet.length) (some ws))

/-- `ConnectionManager.disconnect`: if the websocket is registered, discard
it from its room's set (deleting the room entry if that empties it), delete
its identity record and return it; otherwise return `none` and leave the
state untouched. -/
def ManagerState.disconnect (st : ManagerState) (ws : Nat) :
    ManagerState × Option ConnInfo :=
  match lookupAssoc st.connections ws with
  | some info =>
    let rooms1 :=
      match lookupAssoc st.rooms info.room_id with
      | some conns =>
        let conns' := conns.filter (· != ws)
        if conns'.isEmpty then removeAssoc st.rooms info.room_id
        else updateAssoc st.rooms info.room_id conns'
      | none => st.rooms
    ({ rooms := rooms1, connections := removeAssoc st.connections ws }, some info)
  | none => (st, none)

/-! ### Token decoding (`app/core/security.py`) and the endpoint handler -/

/-- `UserRole` of `app/models/models.py`: a two-value string enum. -/
inductive UserRole where
  | doctor
  | patient
deriving DecidableEq

/-- The `.value` of a `UserRole` member. -/
def UserRole.value : UserRole → String
  | UserRole.doctor => "doctor"
  | UserRole.patient => "patient"

/-- The `UserRole(s)` enum constructor: raises `ValueError` (here `none`)
on any string other than the two member values. -/
def userRoleOfString (s : String) : Option UserRole :=
  if s = "doctor" then some UserRole.doctor
  else if s = "patient" then some UserRole.patient
  else none

/-- `TokenData` of `app/models/models.py`. -/
structure TokenData where
  user_id : Option String
  role : Option UserRole
deriving DecidableEq

/-- A presented credential, as `jose.jwt.decode` sees it: either malformed
or expired or badly signed (`JWTError`), or a payload with optional `sub`
and `role` claims. -/
inductive Token where
  | malformed
  | payload (sub : Option String) (role : Option String)
deriving DecidableEq

/-- `decode_token` of `security.py`: `JWTError` is caught and yields
`None`; a payload without `sub` yields `None`; a truthy `role` claim is fed
to `UserRole(...)`, whose `ValueError` is NOT caught and propagates
(`Except.error`); a falsy (`None` or empty) `role` claim becomes `None`. -/
def decode_token (token : Token) : Except Unit (Option TokenData) :=
  match token with
  | Token.malformed => Except.ok none
  | Token.payload sub role =>
    match sub with
    | none => Except.ok none
    | some uid =>
      match role with
      | none => Except.ok (some ⟨some uid, none⟩)
      | some r =>
        if r = "" then Except.ok (some ⟨some uid, none⟩)
        else
          match userRoleOfString r with
          | some ur => Except.ok (some ⟨some uid, some ur⟩)
          | none => Except.error ()

/-- Outcome of the join phase of `websocket_signaling` (everything before
the receive loop). `closed` is the 4001 rejection; `joined` carries the
identity used, the registry state, the `user-joined` deliveries to others
and the message(s) sent to the joiner; `raised` is an exception escaping
the handler (uncaught `ValueError` from a bad role claim, or a failed
`send_json` of the room snapshot, which happens outside any `try`). -/
inductive JoinOutcome where
  | closed (code : Nat) (reason : String) (st : ManagerState)
  | joined (user_id user_role : String) (st : ManagerState)
      (broadcasts : List (Nat × Msg)) (toJoiner : List Msg)
  | raised (st : ManagerState) (broadcasts : List (Nat × Msg))
deriving DecidableEq

/-- Messages a `JoinOutcome` delivered to connections other than the
joiner. -/
def JoinOutcome.sent : JoinOutcome → List (Nat × Msg)
  | JoinOutcome.closed _ _ _ => []
  | JoinOutcome.joined _ _ _ bcasts _ => bcasts
  | JoinOutcome.raised _ bcasts => bcasts

/-- Registry state after a `JoinOutcome`. -/
def JoinOutcome.state : JoinOutcome → ManagerState
  | JoinOutcome.closed _ _ st => st
  | JoinOutcome.joined _ _ st _ _ => st
  | JoinOutcome.raised st _ => st

/-- The join phase of `websocket_signaling`: decode the token; close 4001
"Invalid token" when decoding yielded no data or the data has a falsy
`user_id`; otherwise take `role.value` (or `"unknown"` when the role is
`None`), register via `connect`, and send the joiner the `room-info`
snapshot for its room. -/
def handleJoin (failing : Nat → Bool) (ws : Nat) (room_id : String)
    (token : Token) (st : ManagerState) : JoinOutcome :=
  match decode_token token with
  | Except.error _ => JoinOutcome.raised st []
  | Except.ok none => JoinOutcome.closed 4001 "Invalid token" st
  | Except.ok (some t) =>
    match t.user_id with
    | none => JoinOutcome.closed 4001 "Invalid token" st
    | some uid =>
      if uid = "" then JoinOutcome.closed 4001 "Invalid token" st
      else
        let user_role :=
          match t.role with
          | some r => r.value
          | none => "unknown"
        let res := st.connect failing ws room_id uid user_role
        match sendJson failing ws
            (Msg.roomInfo room_id (res.1.get_room_participants room_id) uid) with
        | Except.ok m => JoinOutcome.joined uid user_role res.1 res.2 [m]
        | Except.error _ => JoinOutcome.raised res.1 res.2

/-- Inbound message envelope as the receive loop reads it: every field is
fetched with `data.get(...)`, hence optional. -/
structure InData where
  type : Option String
  target_id : Option String
  offer : Option String
  answer : Option String
  candidate : Option String
  granted : Option Bool
  message : Option String
deriving DecidableEq

/-- One iteration of the receive loop of `websocket_signaling`: dispatch on
the `type` string and relay.  Registry state is never mutated here; the
return value is the list of successful deliveries.  (A failed `pong` send
is not wrapped in a `try` in the source: it raises out of the loop and
session teardown follows, modelled separately by `handleSessionEnd`; its
deliveries are empty either way.) -/
def handleMessage (data : InData) (failing : Nat → Bool) (ws : Nat)
    (room_id user_id user_role : String) (st : ManagerState) : List (Nat × Msg) :=
  match data.type with
  | some "offer" =>
    st.send_to_user failing room_id data.target_id
      (Msg.offer data.offer user_id user_role)
  | some "answer" =>
    st.send_to_user failing room_id data.target_id
      (Msg.answer data.answer user_id)
  | some "ice-candidate" =>
    st.send_to_user failing room_id data.target_id
      (Msg.iceCandidate data.candidate user_id)
  | some "recording-started" =>
    st.broadcast_to_room failing room_id (Msg.recordingStarted user_id) none
  | some "recording-stopped" =>
    st.broadcast_to_room failing room_id (Msg.recordingStopped user_id) none
  | some "consent-requested" =>
    st.broadcast_to_room failing room_id (Msg.consentRequested user_id) (some ws)
  | some "consent-response" =>
    st.broadcast_to_room failing room_id
      (Msg.consentResponse data.granted user_id) (some ws)
  | some "chat" =>
    st.broadcast_to_room failing room_id
      (Msg.chat data.message user_id user_role) none
  | some "ping" =>
    match sendJson failing ws Msg.pong with
    | Except.ok m => [(ws, m)]
    | Except.error _ => []
  | _ => []

/-- How a session's receive loop ended: the transport disconnected
(`WebSocketDisconnect`), or some other exception escaped (bad JSON frame,
failed `pong` send, ...). -/
inductive ExitCause where
  | transportDisconnect
  | processingError
deriving DecidableEq

/-- The two `except` clauses closing `websocket_signaling`.  On
`WebSocketDisconnect`: call `disconnect` and, if an identity was returned,
broadcast `user-left` to the room.  On any other exception: call
`disconnect` and broadcast nothing.  Returns the final state, what
`disconnect` returned, and the deliveries. -/
def handleSessionEnd (cause : ExitCause) (failing : Nat → Bool) (ws : Nat)
    (room_id : String) (st : ManagerState) :
    ManagerState × Option ConnInfo × List (Nat × Msg) :=
  match cause with
  | ExitCause.transportDisconnect =>
    let res := st.disconnect ws
    match res.2 with
    | some info =>
      (res.1, some info,
        res.1.broadcast_to_room failing room_id
          (Msg.userLeft info.user_id info.user_role) none)
    | none => (res.1, none, [])
  | ExitCause.processingError =>
    let res := st.disconnect ws
    (res.1, res.2, [])

/-- A fault-free environment: no send ever fails. -/
def noFail : Nat → Bool := fun _ => false

/-- A concrete registry state used to instantiate the theorems: connections
0 (doctor u1) and 1 (patient u2), both in room "r". -/
def stR : ManagerState :=
  ⟨[("r", [0, 1])], [(0, ⟨"r", "u1", "doctor"⟩), (1, ⟨"r", "u2", "patient"⟩)]⟩

/-! ### Helper lemmas on the dict model and the delivery loops -/

theorem lookup_updateAssoc_self {α β : Type} [DecidableEq α]
    (l : List (α × β)) (a : α) (v : β) :
    lookupAssoc (updateAssoc l a v) a = some v := by
  induction l with
  | nil => simp [updateAssoc, lookupAssoc]
  | cons p rest ih =>
    obtain ⟨k, w⟩ := p
    by_cases h : k = a
    · simp [updateAssoc, h, lookupAssoc]
    · simp [updateAssoc, h, lookupAssoc, ih]

theorem lookup_removeAssoc_self {α β : Type} [DecidableEq α]
    (l : List (α × β)) (a : α) :
    lookupAssoc (removeAssoc l a) a = none := by
  induction l with
  | nil => simp [removeAssoc, lookupAssoc]
  | cons p rest ih =>
    obtain ⟨k, w⟩ := p
    by_cases h : k = a
    · simp [removeAssoc, h, ih]
    · simp [removeAssoc, h, lookupAssoc, ih]

theorem mem_broadcastLoop {failing : Nat → Bool} {message : Msg}
    {exclude : Option Nat} {conns : List Nat} {c : Nat}
    (hc : c ∈ conns) (hex : some c ≠ exclude) (hf : failing c = false) :
    (c, message) ∈ broadcastLoop failing message exclude conns := by
  induction conns with
  | nil => cases hc
  | cons d rest ih =>
    rcases List.mem_cons.mp hc with h | h
    · subst h
      simp [broadcastLoop, hex, sendJson, hf]
    · by_cases hde : some d = exclude
      · simpa [broadcastLoop, hde] using ih h
      · by_cases hfd : failing d
        · simpa [broadcastLoop, hde, sendJson, hfd] using ih h
        · simp only [broadcastLoop, if_neg hde, sendJson, hfd, Bool.false_eq_true,
            if_false]
          exact List.mem_cons_of_mem _ (ih h)

theorem mem_broadcastLoop_inv {failing : Nat → Bool} {message : Msg}
    {exclude : Option Nat} {conns : List Nat} {c : Nat} {m : Msg}
    (h : (c, m) ∈ broadcastLoop failing message exclude conns) :
    m = message ∧ c ∈ conns ∧ failing c = false ∧ some c ≠ exclude := by
  induction conns with
  | nil => cases h
  | cons d rest ih =>
    by_cases hde : some d = exclude
    · simp only [broadcastLoop, if_pos hde] at h
      obtain ⟨hm, hmem, hf, hex⟩ := ih h
      exact ⟨hm, List.mem_cons_of_mem _ hmem, hf, hex⟩
    · by_cases hfd : failing d
      · simp only [broadcastLoop, if_neg hde, sendJson, hfd, if_true] at h
        obtain ⟨hm, hmem, hf, hex⟩ := ih h
        exact ⟨hm, List.mem_cons_of_mem _ hmem, hf, hex⟩
      · simp only [broadcastLoop, if_neg hde, sendJson, hfd, Bool.false_eq_true,
          if_false] at h
        rcases List.mem_cons.mp h with h1 | h1
        · rw [Prod.mk.injEq] at h1
          obtain ⟨rfl, rfl⟩ := h1
          exact ⟨rfl, List.mem_cons_self _ _,
            Bool.not_eq_true _ ▸ hfd, hde⟩
        · obtain ⟨hm, hmem, hf, hex⟩ := ih h1
          exact ⟨hm, List.mem_cons_of_mem _ hmem, hf, hex⟩

theorem not_mem_broadcastLoop_excluded {failing : Nat → Bool} {message : Msg}
    {conns : List Nat} {c : Nat} {m : Msg} :
    (c, m) ∉ broadcastLoop failing message (some c) conns :=
  fun h => (mem_broadcastLoop_inv h).2.2.2 rfl

theorem sendToUserLoop_length_le_one (connsMap : List (Nat × ConnInfo))
    (failing : Nat → Bool) (target : Option String) (message : Msg)
    (conns : List Nat) :
    (sendToUserLoop connsMap failing target message conns).length ≤ 1 := by
  induction conns with
  | nil => simp [sendToUserLoop]
  | cons d rest ih =>
    simp only [sendToUserLoop]
    cases lookupAssoc connsMap d with
    | none => exact ih
    | some info =>
      by_cases ht : some info.user_id = target
      · simp only [if_pos ht]
        cases hs : sendJson failing d message <;> simp
      · simpa [if_neg ht] using ih

theorem mem_sendToUserLoop_inv {connsMap : List (Nat × ConnInfo)}
    {failing : Nat → Bool} {target : Option String} {message : Msg}
    {conns : List Nat} {c : Nat} {m : Msg}
    (h : (c, m) ∈ sendToUserLoop connsMap failing target message conns) :
    m = message ∧ c ∈ conns ∧ failing c = false ∧
      ∃ info, lookupAssoc connsMap c = some info ∧ some info.user_id = target := by
  induction conns with
  | nil => cases h
  | cons d rest ih =>
    simp only [sendToUserLoop] at h
    cases hl : lookupAssoc connsMap d with
    | none =>
      rw [hl] at h
      obtain ⟨hm, hmem, hf, hinfo⟩ := ih h
      exact ⟨hm, List.mem_cons_of_mem _ hmem, hf, hinfo⟩
    | some info =>
      rw [hl] at h
      dsimp only at h
      by_cases ht : some info.user_id = target
      · rw [if_pos ht] at h
        cases hs : sendJson failing d message with
        | ok mm =>
          rw [hs] at h
          simp only [List.mem_singleton, Prod.mk.injEq] at h
          obtain ⟨hcd, hmm⟩ := h
          have hfd : failing d = false := by
            by_cases hb : failing d
            · simp [sendJson, hb] at hs
            · exact Bool.not_eq_true _ ▸ hb
          have hmsg : mm = message := by
            simp [sendJson, hfd] at hs
            exact hs.symm
          subst hcd
          subst hmm
          exact ⟨hmsg, List.mem_cons_self _ _, hfd, info, hl, ht⟩
        | error e =>
          rw [hs] at h
          cases h
      · rw [if_neg ht] at h
        obtain ⟨hm, hmem, hf, hinfo⟩ := ih h
        exact ⟨hm, List.mem_cons_of_mem _ hmem, hf, hinfo⟩

theorem sendToUserLoop_no_match {connsMap : List (Nat × ConnInfo)}
    {failing : Nat → Bool} {target : Option String} {message : Msg}
    {conns : List Nat}
    (h : ∀ c ∈ conns, ∀ info, lookupAssoc connsMap c = some info →
      some info.user_id ≠ target) :
    sendToUserLoop connsMap failing target message conns = [] := by
  induction conns with
  | nil => rfl
  | cons d rest ih =>
    simp only [sendToUserLoop]
    cases hl : lookupAssoc connsMap d with
    | none => exact ih fun c hc => h c (List.mem_cons_of_mem _ hc)
    | some info =>
      dsimp only
      rw [if_neg (h d (List.mem_cons_self _ _) info hl)]
      exact ih fun c hc => h c (List.mem_cons_of_mem _ hc)

theorem mem_send_to_user_inv {st : ManagerState} {failing : Nat → Bool}
    {room_id : String} {target : Option String} {message : Msg} {c : Nat} {m : Msg}
    (h : (c, m) ∈ st.send_to_user failing room_id target message) :
    m = message
    ∧ (∃ conns, lookupAssoc st.rooms room_id = some conns ∧ c ∈ conns)
    ∧ failing c = false
    ∧ ∃ info, lookupAssoc st.connections c = some info ∧ some info.user_id = target := by
  unfold ManagerState.send_to_user at h
  cases hl : lookupAssoc st.rooms room_id with
  | none =>
    rw [hl] at h
    exact absurd h (List.not_mem_nil _)
  | some conns =>
    rw [hl] at h
    obtain ⟨hm, hmem, hf, info, hi, ht⟩ := mem_sendToUserLoop_inv h
    exact ⟨hm, ⟨conns, rfl, hmem⟩, hf, info, hi, ht⟩

theorem connect_registers (st : ManagerState) (failing : Nat → Bool) (ws : Nat)
    (room_id user_id user_role : String) :
    ∃ conns : List Nat,
      lookupAssoc (st.connect failing ws room_id user_id user_role).1.rooms room_id
        = some conns
      ∧ ws ∈ conns
      ∧ lookupAssoc (st.connect failing ws room_id user_id user_role).1.connections ws
          = some ⟨room_id, user_id, user_role⟩
      ∧ (st.connect failing ws room_id user_id user_role).2
          = broadcastLoop failing (Msg.userJoined user_id user_role conns.length)
              (some ws) conns := by
  unfold ManagerState.connect
  refine ⟨if ws ∈ (lookupAssoc st.rooms room_id).getD [] then
      (lookupAssoc st.rooms room_id).getD []
    else ws :: (lookupAssoc st.rooms room_id).getD [], ?_, ?_, ?_, ?_⟩
  · exact lookup_updateAssoc_self _ _ _
  · by_cases h : ws ∈ (lookupAssoc st.rooms room_id).getD []
    · simp [h]
    · simp [h]
  · exact lookup_updateAssoc_self _ _ _
  · dsimp only
    unfold ManagerState.broadcast_to_room
    rw [lookup_updateAssoc_self]

theorem member_get_room_participants {st : ManagerState} {room_id : String}
    {conns : List Nat} {ws : Nat} {info : ConnInfo}
    (h1 : lookupAssoc st.rooms room_id = some conns) (h2 : ws ∈ conns)
    (h3 : lookupAssoc st.connections ws = some info) :
    info ∈ st.get_room_participants room_id := by
  unfold ManagerState.get_room_participants
  rw [h1]
  exact List.mem_filterMap.mpr ⟨ws, h2, h3⟩

/-! ### Claim theorems -/

/-- Claim C3 (confirmed): a join attempt whose credential fails to decode
or lacks a user identity claim (exactly the cases where `decode_token`
returns `None`) closes the transport with code 4001 and reason
"Invalid token", leaves the registry state unchanged, and sends no event to
any room member. -/
theorem C3_invalid_token_rejected (failing : Nat → Bool) (ws : Nat)
    (room_id : String) (token : Token) (st : ManagerState)
    (h : decode_token token = Except.ok none) :
    handleJoin failing ws room_id token st
      = JoinOutcome.closed 4001 "Invalid token" st
    ∧ (handleJoin failing ws room_id token st).state = st
    ∧ (handleJoin failing ws room_id token st).sent = [] := by
  unfold handleJoin
  rw [h]
  exact ⟨rfl, rfl, rfl⟩

/-- Claim C3 witness: a malformed credential and a payload without a `sub`
claim are both rejected with 4001 and leave the concrete state `stR`
untouched. -/
theorem C3_witness :
    handleJoin noFail 2 "r" Token.malformed stR
      = JoinOutcome.closed 4001 "Invalid token" stR
    ∧ handleJoin noFail 2 "r" (Token.payload none (some "doctor")) stR
      = JoinOutcome.closed 4001 "Invalid token" stR :=
  ⟨(C3_invalid_token_rejected noFail 2 "r" Token.malformed stR rfl).1,
   (C3_invalid_token_rejected noFail 2 "r" (Token.payload none (some "doctor")) stR
     rfl).1⟩

/-- Claim C4 (confirmed): `send_to_user` delivers to at most one
connection; any delivered message went verbatim to a member of the named
room whose recorded `user_id` equals the target; the call is a silent no-op
when the room is absent or no member matches; and a relayed `offer` only
ever reaches a connection whose recorded `user_id` equals the
sender-supplied `target_id`. -/
theorem C4_send_to_user_targeted (st : ManagerState) (failing : Nat → Bool)
    (room_id : String) (target : Option String) (message : Msg) :
    (st.send_to_user failing room_id target message).length ≤ 1
    ∧ (∀ c m, (c, m) ∈ st.send_to_user failing room_id target message →
        m = message
        ∧ (∃ conns, lookupAssoc st.rooms room_id = some conns ∧ c ∈ conns)
        ∧ ∃ info, lookupAssoc st.connections c = some info
            ∧ some info.user_id = target)
    ∧ (lookupAssoc st.rooms room_id = none →
        st.send_to_user failing room_id target message = [])
    ∧ (∀ conns, lookupAssoc st.rooms room_id = some conns →
        (∀ c ∈ conns, ∀ info, lookupAssoc st.connections c = some info →
          some info.user_id ≠ target) →
        st.send_to_user failing room_id target message = [])
    ∧ (∀ ws uid urole body c m,
        (c, m) ∈ handleMessage ⟨some "offer", target, body, none, none, none, none⟩
            failing ws room_id uid urole st →
        m = Msg.offer body uid urole
        ∧ ∃ info, lookupAssoc st.connections c = some info
            ∧ some info.user_id = target) := by
  refine ⟨?_, ?_, ?_, ?_, ?_⟩
  · unfold ManagerState.send_to_user
    cases lookupAssoc st.rooms room_id with
    | none => simp
    | some conns => exact sendToUserLoop_length_le_one _ _ _ _ _
  · intro c m hm
    obtain ⟨h1, h2, _, h3⟩ := mem_send_to_user_inv hm
    exact ⟨h1, h2, h3⟩
  · intro h
    unfold ManagerState.send_to_user
    rw [h]
  · intro conns hl hnone
    unfold ManagerState.send_to_user
    rw [hl]
    exact sendToUserLoop_no_match hnone
  · intro ws uid urole body c m hm
    have hm' : (c, m) ∈ st.send_to_user failing room_id target
        (Msg.offer body uid urole) := hm
    obtain ⟨h1, _, _, h3⟩ := mem_send_to_user_inv hm'
    exact ⟨h1, h3⟩

/-- Claim C4 witness: in `stR`, targeting "u2" delivers exactly to
connection 1, a member of room "r" recorded with that user id. -/
theorem C4_witness :
    (stR.send_to_user noFail "r" (some "u2") Msg.pong).length ≤ 1
    ∧ Msg.pong = Msg.pong
    ∧ (∃ conns, lookupAssoc stR.rooms "r" = some conns ∧ 1 ∈ conns)
    ∧ ∃ info, lookupAssoc stR.connections 1 = some info
        ∧ some info.user_id = some "u2" := by
  have h := C4_send_to_user_targeted stR noFail "r" (some "u2") Msg.pong
  have h2 := h.2.1 1 Msg.pong (by decide)
  exact ⟨h.1, h2.1, h2.2.1, h2.2.2⟩

/-- Claim C5 (confirmed): `chat`, `recording-started` and
`recording-stopped` are relayed to every connection of the sender's room
whose send succeeds, with no exclusion (so in particular the sender itself,
as the witness instantiates), and the relayed event carries the
actor/sender identity. -/
theorem C5_room_wide_events (failing : Nat → Bool) (ws : Nat)
    (room_id uid urole : String) (txt : Option String) (st : ManagerState)
    (conns : List Nat) (c : Nat)
    (hr : lookupAssoc st.rooms room_id = some conns) (hc : c ∈ conns)
    (hf : failing c = false) :
    (c, Msg.chat txt uid urole) ∈ handleMessage
        ⟨some "chat", none, none, none, none, none, txt⟩
        failing ws room_id uid urole st
    ∧ (c, Msg.recordingStarted uid) ∈ handleMessage
        ⟨some "recording-started", none, none, none, none, none, none⟩
        failing ws room_id uid urole st
    ∧ (c, Msg.recordingStopped uid) ∈ handleMessage
        ⟨some "recording-stopped", none, none, none, none, none, none⟩
        failing ws room_id uid urole st := by
  have hb : ∀ m : Msg, (c, m) ∈ st.broadcast_to_room failing room_id m none := by
    intro m
    unfold ManagerState.broadcast_to_room
    rw [hr]
    exact mem_broadcastLoop hc (Option.some_ne_none c) hf
  exact ⟨hb _, hb _, hb _⟩

/-- Claim C5 witness: in `stR` the sender (connection 0, user u1) itself
receives its own chat and recording events. -/
theorem C5_witness :
    (0, Msg.chat (some "hi") "u1" "doctor") ∈ handleMessage
        ⟨some "chat", none, none, none, none, none, some "hi"⟩
        noFail 0 "r" "u1" "doctor" stR
    ∧ (0, Msg.recordingStarted "u1") ∈ handleMessage
        ⟨some "recording-started", none, none, none, none, none, none⟩
        noFail 0 "r" "u1" "doctor" stR :=
  ⟨(C5_room_wide_events noFail 0 "r" "u1" "doctor" (some "hi") stR [0, 1] 0
      (by decide) (by decide) rfl).1,
   (C5_room_wide_events noFail 0 "r" "u1" "doctor" none stR [0, 1] 0
      (by decide) (by decide) rfl).2.1⟩

/-- Claim C8 (confirmed): a broadcast delivers to every room member whose
own send succeeds, whatever sends to other members fail — a failure is
swallowed and that recipient skipped, never aborting delivery to the rest
(and `broadcast_to_room` is a total function: no error reaches the
caller). -/
theorem C8_failed_send_swallowed (st : ManagerState) (failing : Nat → Bool)
    (room_id : String) (message : Msg) (exclude : Option Nat)
    (conns : List Nat) (c : Nat)
    (hr : lookupAssoc st.rooms room_id = some conns) (hc : c ∈ conns)
    (hex : some c ≠ exclude) (hf : failing c = false) :
    (c, message) ∈ st.broadcast_to_room failing room_id message exclude
    ∧ ∀ c' m, (c', m) ∈ st.broadcast_to_room failing room_id message exclude →
        failing c' = false ∧ m = message := by
  unfold ManagerState.broadcast_to_room
  rw [hr]
  refine ⟨mem_broadcastLoop hc hex hf, ?_⟩
  intro c' m hm
  obtain ⟨h1, _, h2, _⟩ := mem_broadcastLoop_inv hm
  exact ⟨h2, h1⟩

/-- Claim C8 witness: in `stR` with connection 1 broken, a room broadcast
still reaches connection 0. -/
theorem C8_witness :
    (0, Msg.pong) ∈ stR.broadcast_to_room (fun c => c == 1) "r" Msg.pong none :=
  (C8_failed_send_swallowed stR (fun c => c == 1) "r" Msg.pong none [0, 1] 0
    (by decide) (by decide) (by decide) (by decide)).1

/-- Claim C6 (confirmed): `connect` adds the websocket to the room's
membership set (creating the entry if absent), records its identity, and
broadcasts a `user-joined` event carrying the user id, role and the
post-add participant count to every current member except the new
connection (which never receives it). -/
theorem C6_join_announced (st : ManagerState) (failing : Nat → Bool) (ws : Nat)
    (room_id uid urole : String) :
    ∃ conns : List Nat,
      lookupAssoc (st.connect failing ws room_id uid urole).1.rooms room_id
        = some conns
      ∧ ws ∈ conns
      ∧ lookupAssoc (st.connect failing ws room_id uid urole).1.connections ws
          = some ⟨room_id, uid, urole⟩
      ∧ (∀ c, c ∈ conns → c ≠ ws → failing c = false →
          (c, Msg.userJoined uid urole conns.length)
            ∈ (st.connect failing ws room_id uid urole).2)
      ∧ ∀ m, (ws, m) ∉ (st.connect failing ws room_id uid urole).2 := by
  obtain ⟨conns, h1, h2, h3, h4⟩ := connect_registers st failing ws room_id uid urole
  refine ⟨conns, h1, h2, h3, ?_, ?_⟩
  · intro c hc hne hf
    rw [h4]
    exact mem_broadcastLoop hc (fun he => hne (Option.some.inj he)) hf
  · intro m
    rw [h4]
    exact not_mem_broadcastLoop_excluded

/-- Claim C6 witness: connection 1 (patient u2) joining room "r" that
already holds connection 0 is recorded, and connection 0 receives
`user-joined` for u2 with participant count 2. -/
theorem C6_witness :
    lookupAssoc ((ManagerState.mk [("r", [0])]
        [(0, ConnInfo.mk "r" "u1" "doctor")]).connect noFail 1 "r" "u2"
        "patient").1.connections 1
      = some (ConnInfo.mk "r" "u2" "patient")
    ∧ (0, Msg.userJoined "u2" "patient" 2)
        ∈ ((ManagerState.mk [("r", [0])]
            [(0, ConnInfo.mk "r" "u1" "doctor")]).connect noFail 1 "r" "u2"
            "patient").2 := by
  obtain ⟨conns, h1, h2, h3, h4, h5⟩ := C6_join_announced
    (ManagerState.mk [("r", [0])] [(0, ConnInfo.mk "r" "u1" "doctor")])
    noFail 1 "r" "u2" "patient"
  have h0 : lookupAssoc ((ManagerState.mk [("r", [0])]
      [(0, ConnInfo.mk "r" "u1" "doctor")]).connect noFail 1 "r" "u2"
      "patient").1.rooms "r" = some [1, 0] := by decide
  have he : conns = [1, 0] := Option.some.inj (h1.symm.trans h0)
  subst he
  exact ⟨h3, h4 0 (by decide) (by decide) rfl⟩

/-- Claim C7 (confirmed): when `disconnect` removes the last remaining
connection of a room, the room entry itself is deleted from the registry,
and querying participants for an absent room id returns the empty list
(for any state). -/
theorem C7_empty_room_removed (st : ManagerState) (ws : Nat) (info : ConnInfo)
    (conns : List Nat)
    (h1 : lookupAssoc st.connections ws = some info)
    (h2 : lookupAssoc st.rooms info.room_id = some conns)
    (h3 : conns.filter (· != ws) = []) :
    lookupAssoc (st.disconnect ws).1.rooms info.room_id = none
    ∧ (st.disconnect ws).1.get_room_participants info.room_id = []
    ∧ ∀ (st2 : ManagerState) (rid : String),
        lookupAssoc st2.rooms rid = none →
        st2.get_room_participants rid = [] := by
  have hrooms : (st.disconnect ws).1.rooms = removeAssoc st.rooms info.room_id := by
    simp only [ManagerState.disconnect, h1, h2, h3, List.isEmpty_nil, if_true]
  have habs : lookupAssoc (st.disconnect ws).1.rooms info.room_id = none := by
    rw [hrooms]
    exact lookup_removeAssoc_self _ _
  refine ⟨habs, ?_, ?_⟩
  · unfold ManagerState.get_room_participants
    rw [habs]
  · intro st2 rid h
    unfold ManagerState.get_room_participants
    rw [h]

/-- Claim C7 witness: disconnecting the only member of room "r" removes the
room entry and leaves the participant query empty. -/
theorem C7_witness :
    lookupAssoc ((ManagerState.mk [("r", [0])]
        [(0, ConnInfo.mk "r" "u1" "doctor")]).disconnect 0).1.rooms "r" = none
    ∧ ((ManagerState.mk [("r", [0])]
        [(0, ConnInfo.mk "r" "u1" "doctor")]).disconnect
        0).1.get_room_participants "r" = [] := by
  have h := C7_empty_room_removed
    (ManagerState.mk [("r", [0])] [(0, ConnInfo.mk "r" "u1" "doctor")]) 0
    (ConnInfo.mk "r" "u1" "doctor") [0] (by decide) (by decide) (by decide)
  exact ⟨h.1, h.2.1⟩

/-- Claim C9 (confirmed): `disconnect` is idempotent — disconnecting a
connection twice leaves the once-disconnected state unchanged and returns
`none` the second time; disconnecting a never-registered connection is a
pure no-op returning `none`; and a first disconnect of a registered
connection returns exactly the identity record that was stored. -/
theorem C9_leave_idempotent (st : ManagerState) (ws : Nat) :
    (st.disconnect ws).1.disconnect ws = ((st.disconnect ws).1, none)
    ∧ (lookupAssoc st.connections ws = none → st.disconnect ws = (st, none))
    ∧ ∀ info, lookupAssoc st.connections ws = some info →
        (st.disconnect ws).2 = some info := by
  have hnone : ∀ (st2 : ManagerState), lookupAssoc st2.connections ws = none →
      st2.disconnect ws = (st2, none) := by
    intro st2 h
    unfold ManagerState.disconnect
    rw [h]
  refine ⟨?_, hnone st, ?_⟩
  · cases hl : lookupAssoc st.connections ws with
    | none =>
      rw [hnone st hl]
      exact hnone st hl
    | some info =>
      have h1 : (st.disconnect ws).1.connections = removeAssoc st.connections ws := by
        simp only [ManagerState.disconnect, hl]
      exact hnone _ (h1.symm ▸ lookup_removeAssoc_self st.connections ws)
  · intro info h
    simp only [ManagerState.disconnect, h]

/-- Claim C9 witness: in `stR`, a second disconnect of connection 0 is a
no-op, disconnecting unknown connection 5 is a no-op, and the first
disconnect of connection 0 returned its identity record. -/
theorem C9_witness :
    (stR.disconnect 0).1.disconnect 0 = ((stR.disconnect 0).1, none)
    ∧ stR.disconnect 5 = (stR, none)
    ∧ (stR.disconnect 0).2 = some (ConnInfo.mk "r" "u1" "doctor") :=
  ⟨(C9_leave_idempotent stR 0).1,
   (C9_leave_idempotent stR 5).2.1 (by decide),
   (C9_leave_idempotent stR 0).2.2 (ConnInfo.mk "r" "u1" "doctor") (by decide)⟩

/-- Claim C1 counterexample: the claim says a `user-left` event is
broadcast whenever `leave` returns the removed identity, under either exit
path.  In `stR` (members 0 and 1), ending connection 0's session through
the generic-exception path makes `disconnect` return the identity record,
yet the delivery list is empty — connection 1, still a member of room "r",
gets no `user-left` notification. -/
theorem C1_counterexample :
    (handleSessionEnd ExitCause.processingError noFail 0 "r" stR).2.1
      = some (ConnInfo.mk "r" "u1" "doctor")
    ∧ (handleSessionEnd ExitCause.processingError noFail 0 "r" stR).2.2 = []
    ∧ lookupAssoc
        (handleSessionEnd ExitCause.processingError noFail 0 "r" stR).1.rooms "r"
      = some [1] := by decide

/-- Claim C1 as amended (proved): on either exit path the handler applies
`leave` exactly once — the final state and returned identity are exactly
those of one `disconnect` call.  On a graceful transport disconnect, if an
identity was returned, `user-left` with its user id and role is broadcast
to the post-removal room (and nothing is sent when no identity was
returned); on the unrecoverable-error path no `user-left` broadcast is
sent at all. -/
theorem C1_leave_once (cause : ExitCause) (failing : Nat → Bool) (ws : Nat)
    (room_id : String) (st : ManagerState) :
    (handleSessionEnd cause failing ws room_id st).1 = (st.disconnect ws).1
    ∧ (handleSessionEnd cause failing ws room_id st).2.1 = (st.disconnect ws).2
    ∧ (cause = ExitCause.processingError →
        (handleSessionEnd cause failing ws room_id st).2.2 = [])
    ∧ (∀ info, cause = ExitCause.transportDisconnect →
        (st.disconnect ws).2 = some info →
        (handleSessionEnd cause failing ws room_id st).2.2
          = (st.disconnect ws).1.broadcast_to_room failing room_id
              (Msg.userLeft info.user_id info.user_role) none)
    ∧ (cause = ExitCause.transportDisconnect → (st.disconnect ws).2 = none →
        (handleSessionEnd cause failing ws room_id st).2.2 = []) := by
  cases cause with
  | transportDisconnect =>
    cases hd : (st.disconnect ws).2 with
    | some info => simp [handleSessionEnd, hd]
    | none => simp [handleSessionEnd, hd]
  | processingError => simp [handleSessionEnd]

/-- Claim C1 witness: in `stR`, a graceful disconnect of connection 0
removes it, returns its identity, and delivers `user-left{u1,doctor}` to
the remaining member 1. -/
theorem C1_witness :
    (handleSessionEnd ExitCause.transportDisconnect noFail 0 "r" stR).2.2
      = [(1, Msg.userLeft "u1" "doctor")] := by
  have h := (C1_leave_once ExitCause.transportDisconnect noFail 0 "r" stR).2.2.2.1
    (ConnInfo.mk "r" "u1" "doctor") rfl (by decide)
  rw [h]
  decide

/-- Claim C2 counterexample: the claim says the `room-info` participant
list excludes the joiner.  With connection 0 (u1) already in room "r",
connection 1 joining as u2 receives a `room-info` whose participant list
contains u2's own record — the joiner is included, not excluded. -/
theorem C2_counterexample :
    handleJoin noFail 1 "r" (Token.payload (some "u2") (some "patient"))
        (ManagerState.mk [("r", [0])] [(0, ConnInfo.mk "r" "u1" "doctor")])
      = JoinOutcome.joined "u2" "patient"
          (ManagerState.mk [("r", [1, 0])]
            [(0, ConnInfo.mk "r" "u1" "doctor"), (1, ConnInfo.mk "r" "u2" "patient")])
          [(0, Msg.userJoined "u2" "patient" 2)]
          [Msg.roomInfo "r"
            [ConnInfo.mk "r" "u2" "patient", ConnInfo.mk "r" "u1" "doctor"] "u2"]
    ∧ (ConnInfo.mk "r" "u2" "patient")
        ∈ [ConnInfo.mk "r" "u2" "patient", ConnInfo.mk "r" "u1" "doctor"]
    ∧ (ConnInfo.mk "r" "u2" "patient").user_id = "u2" := by decide

/-- Claim C2 as amended (proved): every successful join sends the joiner
exactly one `room-info` message, carrying the room id, the joiner's own
identifier, and the room's current participant list — which includes the
joiner's own freshly registered record (rather than excluding it). -/
theorem C2_room_snapshot (failing : Nat → Bool) (ws : Nat) (room_id : String)
    (token : Token) (st : ManagerState) (uid urole : String)
    (st1 : ManagerState) (bcasts : List (Nat × Msg)) (toJ : List Msg)
    (h : handleJoin failing ws room_id token st
      = JoinOutcome.joined uid urole st1 bcasts toJ) :
    toJ = [Msg.roomInfo room_id (st1.get_room_participants room_id) uid]
    ∧ ConnInfo.mk room_id uid urole ∈ st1.get_room_participants room_id := by
  unfold handleJoin at h
  cases hd : decode_token token with
  | error e => rw [hd] at h; cases h
  | ok td =>
    rw [hd] at h
    cases td with
    | none => cases h
    | some t =>
      dsimp only at h
      cases ht : t.user_id with
      | none => rw [ht] at h; dsimp only at h; cases h
      | some uid' =>
        rw [ht] at h
        dsimp only at h
        by_cases he : uid' = ""
        · rw [if_pos he] at h; cases h
        · rw [if_neg he] at h
          cases hs : sendJson failing ws (Msg.roomInfo room_id
              ((st.connect failing ws room_id uid'
                (match t.role with
                 | some r => r.value
                 | none => "unknown")).1.get_room_participants room_id) uid') with
          | error e => rw [hs] at h; cases h
          | ok m =>
            rw [hs] at h
            have hm : m = Msg.roomInfo room_id
                ((st.connect failing ws room_id uid'
                  (match t.role with
                   | some r => r.value
                   | none => "unknown")).1.get_room_participants room_id) uid' := by
              by_cases hb : failing ws
              · simp [sendJson, hb] at hs
              · simp [sendJson, hb] at hs
                exact hs.symm
            injection h with e1 e2 e3 e4 e5
            subst e1
            subst e2
            subst e3
            subst e4
            subst e5
            obtain ⟨conns, k1, k2, k3, _⟩ := connect_registers st failing ws room_id
              uid' (match t.role with
                    | some r => r.value
                    | none => "unknown")
            exact ⟨by rw [hm], member_get_room_participants k1 k2 k3⟩

/-- Claim C2 witness: for the concrete join of the counterexample, the
amended statement instantiates — one `room-info` message whose participant
list contains the joiner's own record. -/
theorem C2_witness :
    [Msg.roomInfo "r"
        [ConnInfo.mk "r" "u2" "patient", ConnInfo.mk "r" "u1" "doctor"] "u2"]
      = [Msg.roomInfo "r"
          ((ManagerState.mk [("r", [1, 0])]
            [(0, ConnInfo.mk "r" "u1" "doctor"),
             (1, ConnInfo.mk "r" "u2" "patient")]).get_room_participants "r") "u2"]
    ∧ ConnInfo.mk "r" "u2" "patient"
        ∈ (ManagerState.mk [("r", [1, 0])]
            [(0, ConnInfo.mk "r" "u1" "doctor"),
             (1, ConnInfo.mk "r" "u2" "patient")]).get_room_participants "r" :=
  C2_room_snapshot noFail 1 "r" (Token.payload (some "u2") (some "patient"))
    (ManagerState.mk [("r", [0])] [(0, ConnInfo.mk "r" "u1" "doctor")])
    "u2" "patient"
    (ManagerState.mk [("r", [1, 0])]
      [(0, ConnInfo.mk "r" "u1" "doctor"), (1, ConnInfo.mk "r" "u2" "patient")])
    [(0, Msg.userJoined "u2" "patient" 2)]
    [Msg.roomInfo "r"
      [ConnInfo.mk "r" "u2" "patient", ConnInfo.mk "r" "u1" "doctor"] "u2"]
    (by decide)

/-- Claim C10 (confirmed): a credential whose payload carries a (non-empty)
`sub` but no `role` claim decodes successfully with role `None`, the join
is accepted, and the connection is registered and announced with
`user_role` equal to the literal string "unknown" — a value outside the
doctor|patient enum. -/
theorem C10_missing_role_accepted (failing : Nat → Bool) (ws : Nat)
    (room_id uid : String) (st : ManagerState)
    (h1 : uid ≠ "") (h2 : failing ws = false) :
    decode_token (Token.payload (some uid) none)
      = Except.ok (some ⟨some uid, none⟩)
    ∧ handleJoin failing ws room_id (Token.payload (some uid) none) st
        = JoinOutcome.joined uid "unknown"
            (st.connect failing ws room_id uid "unknown").1
            (st.connect failing ws room_id uid "unknown").2
            [Msg.roomInfo room_id
              ((st.connect failing ws room_id uid
                "unknown").1.get_room_participants room_id) uid]
    ∧ lookupAssoc (st.connect failing ws room_id uid
          "unknown").1.connections ws = some ⟨room_id, uid, "unknown"⟩
    ∧ "unknown" ≠ UserRole.doctor.value
    ∧ "unknown" ≠ UserRole.patient.value := by
  obtain ⟨conns, k1, k2, k3, k4⟩ := connect_registers st failing ws room_id uid
    "unknown"
  refine ⟨rfl, ?_, k3, by decide, by decide⟩
  unfold handleJoin
  dsimp only [decode_token]
  rw [if_neg h1]
  simp only [sendJson, h2, Bool.false_eq_true, if_false]

/-- Claim C10 witness: user u1 joins room "r" with a role-less credential
and is registered and announced as "unknown". -/
theorem C10_witness :
    handleJoin noFail 0 "r" (Token.payload (some "u1") none)
        (ManagerState.mk [] [])
      = JoinOutcome.joined "u1" "unknown"
          (ManagerState.mk [("r", [0])] [(0, ConnInfo.mk "r" "u1" "unknown")]) []
          [Msg.roomInfo "r" [ConnInfo.mk "r" "u1" "unknown"] "u1"]
    ∧ decode_token (Token.payload (some "u1") none)
        = Except.ok (some ⟨some "u1", none⟩) :=
  ⟨by decide,
   (C10_missing_role_accepted noFail 0 "r" "u1" (ManagerState.mk [] [])
     (by decide) rfl).1⟩

end Signaling
